import Mathlib

/-!
Verification of the hotel-booking dialogue core of `mera-hotel`.

The Python sources embedded here are `agents/hotel_agent.py`,
`agents/graph_builder.py` and the rule-based extraction part of
`integrations/ai_client.py`.  The modules `models/booking_models.py` and
`database/db_manager.py` are not present in the repository snapshot; the
definitions that stand in for them are modelled from the specification and
are marked `Modelled from the spec:` in their doc comments.

External collaborators (the Gemini language-understanding service) are
represented by an environment of pure functions (`Env`): the claims under
study all condition on "the same collaborator behaviour".
-/

set_option maxRecDepth 100000

namespace MeraHotel

/-! ### ASCII character classes (Python `str` semantics on ASCII input) -/

/-- Python `\d` / `str.isdigit` on ASCII. -/
def pyIsDigit (c : Char) : Bool := '0' ≤ c && c ≤ '9'

/-- ASCII letter. -/
def pyIsAlpha (c : Char) : Bool := ('a' ≤ c && c ≤ 'z') || ('A' ≤ c && c ≤ 'Z')

/-- Regex class `[a-zA-Z0-9]`. -/
def pyIsAlnum (c : Char) : Bool := pyIsAlpha c || pyIsDigit c

/-- Regex `\w` on ASCII: letters, digits and underscore. -/
def pyIsWord (c : Char) : Bool := pyIsAlnum c || c = '_'

/-- Regex `\s` / `str.strip` whitespace set on ASCII. -/
def pyIsSpace (c : Char) : Bool :=
  c = ' ' || c = '\t' || c = '\n' || c = '\r' || c = '\x0b' || c = '\x0c'

/-- `str.lower` on one ASCII character. -/
def pyToLowerChar (c : Char) : Char :=
  if 'A' ≤ c && c ≤ 'Z' then Char.ofNat (c.toNat + 32) else c

/-- `str.upper` on one ASCII character. -/
def pyToUpperChar (c : Char) : Char :=
  if 'a' ≤ c && c ≤ 'z' then Char.ofNat (c.toNat - 32) else c

/-- Numeric value of a digit character. -/
def digitVal (c : Char) : Nat := c.toNat - '0'.toNat

/-! ### Python string operations -/

/-- `str.lower` (ASCII). -/
def pyLower (s : String) : String := String.mk (s.data.map pyToLowerChar)

/-- `str.upper` (ASCII). -/
def pyUpper (s : String) : String := String.mk (s.data.map pyToUpperChar)

/-- `str.strip()`: drop leading and trailing whitespace. -/
def pyStrip (s : String) : String :=
  String.mk (((s.data.dropWhile pyIsSpace).reverse.dropWhile pyIsSpace).reverse)

/-- Substring test on char lists (`needle in haystack` for Python `str`). -/
def containsSub (needle : List Char) : List Char → Bool
  | [] => needle.isEmpty
  | c :: t => needle.isPrefixOf (c :: t) || containsSub needle t

/-- Python `needle in s` for strings. -/
def strContains (needle s : String) : Bool := containsSub needle.data s.data

/-- `str.title` helper: the Boolean says whether the previous character was
a letter. -/
def pyTitleAux : Bool → List Char → List Char
  | _, [] => []
  | prev, c :: rest =>
    if pyIsAlpha c then
      (if prev then pyToLowerChar c else pyToUpperChar c) :: pyTitleAux true rest
    else c :: pyTitleAux false rest

/-- `str.title` (ASCII). -/
def pyTitle (s : String) : String := String.mk (pyTitleAux false s.data)

/-- `str.split(sep)` for a one-character separator: keeps empty pieces. -/
def pySplitChar (sep : Char) : List Char → List (List Char)
  | [] => [[]]
  | c :: rest =>
    match pySplitChar sep rest with
    | [] => [[]]
    | h :: t => if c = sep then [] :: h :: t else (c :: h) :: t

/-- `str.split()` with no argument: whitespace-run separated tokens,
empty pieces dropped.  Fuel-driven recursion (the fuel is the length). -/
def pySplitWSFuel : Nat → List Char → List (List Char)
  | 0, _ => []
  | n + 1, l =>
    let l1 := l.dropWhile pyIsSpace
    let tok := l1.takeWhile (fun c => !pyIsSpace c)
    let rest := l1.dropWhile (fun c => !pyIsSpace c)
    if tok.isEmpty then [] else tok :: pySplitWSFuel n rest

/-- `str.split()` with no argument. -/
def pySplitWS (l : List Char) : List (List Char) := pySplitWSFuel (l.length + 1) l

/-- `str.zfill(2)` on the digit tokens that reach it. -/
def zfill2 (s : String) : String :=
  match s.data with
  | [] => "00"
  | [c] => String.mk ['0', c]
  | _ => s

/-- Python `int(str)`: strip whitespace, optional sign, then digits with
single interior underscores allowed. -/
def pyIntDigits : List Char → Bool
  | [] => false
  | [c] => pyIsDigit c
  | c :: '_' :: rest => pyIsDigit c && pyIntDigits rest
  | c :: rest => pyIsDigit c && pyIntDigits rest

/-- Value of a digit string read left to right, skipping underscores. -/
def pyIntValAux (acc : Nat) : List Char → Nat
  | [] => acc
  | '_' :: rest => pyIntValAux acc rest
  | c :: rest => pyIntValAux (acc * 10 + digitVal c) rest

/-- Python `int(s)` for a string, as an `Option`: `none` models `ValueError`. -/
def pyToInt (s : String) : Option Int :=
  let t := (s.data.dropWhile pyIsSpace).reverse.dropWhile pyIsSpace |>.reverse
  match t with
  | '+' :: rest => if pyIntDigits rest then some (pyIntValAux 0 rest) else none
  | '-' :: rest => if pyIntDigits rest then some (-(pyIntValAux 0 rest : Int)) else none
  | rest => if pyIntDigits rest then some (pyIntValAux 0 rest) else none

/-! ### Calendar dates and `datetime.strptime(s, "%Y-%m-%d")`

Python's `_strptime` compiles `%Y-%m-%d` to the regex
`(?P<Y>\d\d\d\d)-(?P<m>1[0-2]|0[1-9]|[1-9])-(?P<d>3[01]|[12]\d|0[1-9]|[1-9])`,
matches it as a prefix, raises `ValueError` when unconverted data remains,
and finally constructs `datetime(Y, m, d)`, which validates the day against
the month length and requires `1 ≤ Y`.  The parsers below reproduce that,
including the ordered-alternation commitment of the regex engine. -/

/-- A calendar date as parsed by `strptime`. -/
structure Date where
  year : Nat
  month : Nat
  day : Nat
deriving DecidableEq, Repr

/-- Month field of the strptime regex: ordered alternation
`1[0-2]|0[1-9]|[1-9]`, returning the value and the rest of the input. -/
def parseMonthField : List Char → Option (Nat × List Char)
  | c1 :: c2 :: rest =>
    if c1 = '1' && '0' ≤ c2 && c2 ≤ '2' then some (10 + digitVal c2, rest)
    else if c1 = '0' && '1' ≤ c2 && c2 ≤ '9' then some (digitVal c2, rest)
    else if '1' ≤ c1 && c1 ≤ '9' then some (digitVal c1, c2 :: rest)
    else none
  | [c1] => if '1' ≤ c1 && c1 ≤ '9' then some (digitVal c1, []) else none
  | [] => none

/-- Day field of the strptime regex: ordered alternation
`3[01]|[12]\d|0[1-9]|[1-9]`. -/
def parseDayField : List Char → Option (Nat × List Char)
  | c1 :: c2 :: rest =>
    if c1 = '3' && (c2 = '0' || c2 = '1') then some (30 + digitVal c2, rest)
    else if (c1 = '1' || c1 = '2') && pyIsDigit c2 then
      some (10 * digitVal c1 + digitVal c2, rest)
    else if c1 = '0' && '1' ≤ c2 && c2 ≤ '9' then some (digitVal c2, rest)
    else if '1' ≤ c1 && c1 ≤ '9' then some (digitVal c1, c2 :: rest)
    else none
  | [c1] => if '1' ≤ c1 && c1 ≤ '9' then some (digitVal c1, []) else none
  | [] => none

/-- The `%Y-%m-%d` regex applied to the whole input (strptime rejects
unconverted trailing data, so the day field must exhaust the string). -/
def parseYMDCore : List Char → Option (Nat × Nat × Nat)
  | y1 :: y2 :: y3 :: y4 :: '-' :: rest =>
    if pyIsDigit y1 && pyIsDigit y2 && pyIsDigit y3 && pyIsDigit y4 then
      let y := digitVal y1 * 1000 + digitVal y2 * 100 + digitVal y3 * 10 + digitVal y4
      match parseMonthField rest with
      | some (m, '-' :: rest2) =>
        match parseDayField rest2 with
        | some (d, []) => some (y, m, d)
        | _ => none
      | _ => none
    else none
  | _ => none

/-- Proleptic-Gregorian leap year (Python `calendar.isleap`). -/
def isLeap (y : Nat) : Bool := y % 4 = 0 && (y % 100 ≠ 0 || y % 400 = 0)

/-- Length of a month. -/
def monthLen (leap : Bool) : Nat → Nat
  | 1 => 31
  | 2 => if leap then 29 else 28
  | 3 => 31
  | 4 => 30
  | 5 => 31
  | 6 => 30
  | 7 => 31
  | 8 => 31
  | 9 => 30
  | 10 => 31
  | 11 => 30
  | 12 => 31
  | _ => 0

/-- `datetime.strptime(s, "%Y-%m-%d")` as an `Option`: `none` models
`ValueError` (regex failure, trailing data, or out-of-range component). -/
def parseYMD (s : String) : Option Date :=
  match parseYMDCore s.data with
  | some (y, m, d) =>
    if 1 ≤ y && d ≤ monthLen (isLeap y) m then some ⟨y, m, d⟩ else none
  | none => none

/-- Days in the months strictly before month `m` of year `y`. -/
def daysBeforeMonth (y m : Nat) : Nat :=
  (List.range (m - 1)).foldl (fun acc i => acc + monthLen (isLeap y) (i + 1)) 0

/-- Proleptic-Gregorian day number (rata die).  `datetime` comparison is
chronological order, i.e. comparison of these day numbers; the difference
of two day numbers is `(d2 - d1).days`. -/
def rataDie (d : Date) : Nat :=
  let y := d.year - 1
  365 * y + y / 4 + y / 400 - y / 100 + daysBeforeMonth d.year d.month + d.day

/-! ### `HotelAgent._validate_dates` and the price computation -/

/-- `HotelAgent._validate_dates` (hotel_agent.py lines 162-171): parse both
strings with `strptime("%Y-%m-%d")`; require `check_in.date() >= today` and
`check_out > check_in` (chronological comparison); `ValueError` yields
`False`.  `today` (`datetime.now().date()`) is a parameter of the model. -/
def validate_dates (today : Date) (check_in check_out : String) : Bool :=
  match parseYMD check_in, parseYMD check_out with
  | some a, some b => rataDie today ≤ rataDie a && rataDie a < rataDie b
  | _, _ => false

/-- Modelled from the spec: `calculate_total_price` lives in
`models/booking_models.py`, which is absent from the repository snapshot.
The spec fixes `total_price = nightly_rate(room_type) × nights(check_in,
check_out)`; nights is the day-number difference of the two parsed dates.
Unparseable dates give zero nights.  Prices are exact rationals (the
Python floats 100.0/150.0/250.0 represent these values exactly). -/
def calculate_total_price (rate : ℚ) (check_in check_out : String) : ℚ :=
  match parseYMD check_in, parseYMD check_out with
  | some a, some b => rate * (((rataDie b : ℤ) - (rataDie a : ℤ) : ℤ) : ℚ)
  | _, _ => 0

/-! ### Rule-based date extraction (`AIClient._extract_booking_info_rules`)

The three literal patterns of ai_client.py lines 235-239 are
`(\d{4}-\d{1,2}-\d{1,2})`, `(\d{1,2}[slash-or-hyphen]\d{1,2}[slash-or-hyphen]\d{4})` and
`(\d{1,2}\s+\w+\s+\d{4})`.  For these patterns the regex engine's
backtracking never helps (a shorter greedy choice always leaves the next
sub-pattern facing a character of the same class it just rejected), so each
matcher below is a direct scanner; this was checked against `re` on the
boundary cases.  `re.findall` scans left to right, non-overlapping. -/

/-- Matches `\d{4}-\d{1,2}-\d{1,2}` at the head of the input, returning the
matched characters and the remainder. -/
def matchPat1 (l : List Char) : Option (List Char × List Char) :=
  match l with
  | y1 :: y2 :: y3 :: y4 :: '-' :: rest =>
    if pyIsDigit y1 && pyIsDigit y2 && pyIsDigit y3 && pyIsDigit y4 then
      match rest with
      | m1 :: m2 :: '-' :: rest2 =>
        if pyIsDigit m1 && pyIsDigit m2 then
          match rest2 with
          | d1 :: d2 :: rest3 =>
            if pyIsDigit d1 && pyIsDigit d2 then
              some ([y1, y2, y3, y4, '-', m1, m2, '-', d1, d2], rest3)
            else if pyIsDigit d1 then
              some ([y1, y2, y3, y4, '-', m1, m2, '-', d1], d2 :: rest3)
            else none
          | [d1] => if pyIsDigit d1 then some ([y1, y2, y3, y4, '-', m1, m2, '-', d1], []) else none
          | [] => none
        else none
      | m1 :: '-' :: rest2 =>
        if pyIsDigit m1 then
          match rest2 with
          | d1 :: d2 :: rest3 =>
            if pyIsDigit d1 && pyIsDigit d2 then
              some ([y1, y2, y3, y4, '-', m1, '-', d1, d2], rest3)
            else if pyIsDigit d1 then
              some ([y1, y2, y3, y4, '-', m1, '-', d1], d2 :: rest3)
            else none
          | [d1] => if pyIsDigit d1 then some ([y1, y2, y3, y4, '-', m1, '-', d1], []) else none
          | [] => none
        else none
      | _ => none
    else none
  | _ => none

/-- One-or-two digits followed by a separator (slash or hyphen); returns the
consumed characters (digits and separator) and the remainder. -/
def digits12Sep (l : List Char) : Option (List Char × List Char) :=
  match l with
  | c1 :: c2 :: c3 :: rest =>
    if pyIsDigit c1 && pyIsDigit c2 && (c3 = '/' || c3 = '-') then
      some ([c1, c2, c3], rest)
    else if pyIsDigit c1 && (c2 = '/' || c2 = '-') then
      some ([c1, c2], c3 :: rest)
    else none
  | [c1, c2] =>
    if pyIsDigit c1 && (c2 = '/' || c2 = '-') then some ([c1, c2], []) else none
  | _ => none

/-- Matches `\d{1,2}<sep>\d{1,2}<sep>\d{4}` (each `<sep>` independently a slash or hyphen) at the head of the input. -/
def matchPat2 (l : List Char) : Option (List Char × List Char) :=
  match digits12Sep l with
  | some (p1, rest1) =>
    match digits12Sep rest1 with
    | some (p2, rest2) =>
      match rest2 with
      | a :: b :: c :: d :: rest3 =>
        if pyIsDigit a && pyIsDigit b && pyIsDigit c && pyIsDigit d then
          some (p1 ++ p2 ++ [a, b, c, d], rest3)
        else none
      | _ => none
    | none => none
  | none => none

/-- Matches `\d{1,2}\s+\w+\s+\d{4}` at the head of the input; the whitespace
and word runs are maximal (greedy, and no shorter choice can succeed since
`\s` and `\w` are disjoint character classes). -/
def matchPat3 (l : List Char) : Option (List Char × List Char) :=
  let digits :=
    match l with
    | c1 :: c2 :: rest =>
      if pyIsDigit c1 && pyIsDigit c2 then some ([c1, c2], rest)
      else if pyIsDigit c1 then some ([c1], c2 :: rest)
      else none
    | [c1] => if pyIsDigit c1 then some ([c1], ([] : List Char)) else none
    | [] => none
  match digits with
  | none => none
  | some (ds, r1) =>
    let ws1 := r1.takeWhile pyIsSpace
    let r2 := r1.dropWhile pyIsSpace
    if ws1.isEmpty then none else
    let wd := r2.takeWhile pyIsWord
    let r3 := r2.dropWhile pyIsWord
    if wd.isEmpty then none else
    let ws2 := r3.takeWhile pyIsSpace
    let r4 := r3.dropWhile pyIsSpace
    if ws2.isEmpty then none else
    match r4 with
    | a :: b :: c :: d :: rest =>
      if pyIsDigit a && pyIsDigit b && pyIsDigit c && pyIsDigit d then
        some (ds ++ ws1 ++ wd ++ ws2 ++ [a, b, c, d], rest)
      else none
    | _ => none

/-- `re.findall` for a prefix matcher: scan left to right, non-overlapping;
fuel-driven (the matchers always consume at least one character). -/
def findAllAux (m : List Char → Option (List Char × List Char)) :
    Nat → List Char → List String
  | 0, _ => []
  | _ + 1, [] => []
  | fuel + 1, c :: rest =>
    match m (c :: rest) with
    | some (t, r) => String.mk t :: findAllAux m fuel r
    | none => findAllAux m fuel rest

/-- `re.findall(pattern, message)` for one of the three date patterns. -/
def findAllPat (m : List Char → Option (List Char × List Char)) (s : String) :
    List String :=
  findAllAux m s.data.length s.data

/-- ai_client.py lines 241-244: the matches of the three patterns are
accumulated pattern by pattern (`dates_found.extend(matches)`), not in
utterance order. -/
def datesFound (message : String) : List String :=
  findAllPat matchPat1 message ++ findAllPat matchPat2 message ++
    findAllPat matchPat3 message

/-- The fixed 24-entry month-name lookup of `AIClient._normalize_date`. -/
def monthMap (s : String) : Option String :=
  (([("january", "01"), ("jan", "01"), ("february", "02"), ("feb", "02"),
     ("march", "03"), ("mar", "03"), ("april", "04"), ("apr", "04"),
     ("may", "05"), ("june", "06"), ("jun", "06"), ("july", "07"),
     ("jul", "07"), ("august", "08"), ("aug", "08"), ("september", "09"),
     ("sep", "09"), ("october", "10"), ("oct", "10"), ("november", "11"),
     ("nov", "11"), ("december", "12"), ("dec", "12")] :
      List (String × String)).find? (fun p => p.1 == s)).map (·.2)

/-- `re.match(r'\d{1,2}\s+\w+\s+\d{4}', s)` as a Boolean (prefix match). -/
def isPat3Start (l : List Char) : Bool := (matchPat3 l).isSome

/-- `re.match(r'\d{4}-\d{1,2}-\d{1,2}', s)` as a Boolean (prefix match). -/
def isPat1Start (l : List Char) : Bool := (matchPat1 l).isSome

/-- `re.match` of the slash-or-hyphen date pattern, as a Boolean prefix test. -/
def isPat2Start (l : List Char) : Bool := (matchPat2 l).isSome

/-- `AIClient._normalize_date` (ai_client.py lines 290-321).  The branches
are tried in source order: day-MonthName-year first (falling through when
the month name is unknown), then `YYYY-M-D`, then `M/D/YYYY` or `M-D-YYYY`
(the separator for splitting is `/` when a `/` occurs anywhere, else `-`;
a short split raises `IndexError`, caught as `None`).  The whole body is
wrapped in `try/except`, so failure is `none`, never an exception. -/
def pyNormalizeDate (date_str : String) : Option String :=
  let viaMonthName : Option String :=
    if isPat3Start date_str.data then
      match pySplitWS date_str.data with
      | p0 :: p1 :: p2 :: _ =>
        match monthMap (pyLower (String.mk p1)) with
        | some m => some (String.mk p2 ++ "-" ++ m ++ "-" ++ zfill2 (String.mk p0))
        | none => none
      | _ => none
    else none
  match viaMonthName with
  | some r => some r
  | none =>
    if isPat3Start date_str.data ∧ (pySplitWS date_str.data).length < 3 then
      none
    else if isPat1Start date_str.data then
      match pySplitChar '-' date_str.data with
      | p0 :: p1 :: p2 :: _ =>
        some (String.mk p0 ++ "-" ++ zfill2 (String.mk p1) ++ "-" ++ zfill2 (String.mk p2))
      | _ => none
    else if isPat2Start date_str.data then
      let sep : Char := if date_str.data.contains '/' then '/' else '-'
      match pySplitChar sep date_str.data with
      | p0 :: p1 :: p2 :: _ =>
        some (String.mk p2 ++ "-" ++ zfill2 (String.mk p0) ++ "-" ++ zfill2 (String.mk p1))
      | _ => none
    else none

/-- ai_client.py lines 246-250: normalize every found date, dropping the
unparseable ones. -/
def normalizedDates (message : String) : List String :=
  (datesFound message).filterMap pyNormalizeDate

/-- ai_client.py lines 252-259: assignment of the normalized dates to the
`check_in_date` / `check_out_date` fields of the extraction record. -/
def rulesDateAssignment (message : String) : Option String × Option String :=
  let nd := normalizedDates message
  let ml := pyLower message
  match nd with
  | d1 :: d2 :: _ => (some d1, some d2)
  | [d1] =>
    if strContains "check in" ml || strContains "checkin" ml then (some d1, none)
    else if strContains "check out" ml || strContains "checkout" ml then (none, some d1)
    else (none, none)
  | [] => (none, none)

/-! ### `re.search(r'bk[a-zA-Z0-9]+', message, re.IGNORECASE)` -/

/-- Leftmost match of `bk[a-zA-Z0-9]+`; the input is already lower-cased by
the caller (`message = state.last_message.lower()`), matching the source. -/
def findBkToken : List Char → Option String
  | [] => none
  | c :: rest =>
    if c = 'b' then
      match rest with
      | 'k' :: c2 :: r2 =>
        if pyIsAlnum c2 then
          some (String.mk ('b' :: 'k' :: c2 :: r2.takeWhile pyIsAlnum))
        else findBkToken rest
      | _ => findBkToken rest
    else findBkToken rest

/-! ### Data model

`models/booking_models.py` and `database/db_manager.py` are not in the
repository snapshot; the structures and store operations below are marked
accordingly and follow §3 and §6 of the spec. -/

/-- One catalog entry of the hotel's `room_types` mapping.  `price` is the
exact rational value of the Python float; `priceStr` is its `str()` display
(used in f-string interpolation such as `$100.0/night`). -/
structure RoomInfo where
  price : ℚ
  priceStr : String
  capacity : Nat
  description : String

/-- The hotel catalog (`HotelAgent.hotel_info`): ordered room-type mapping,
amenities, policy strings. -/
structure HotelData where
  name : String
  room_types : List (String × RoomInfo)
  amenities : List String
  policies : List (String × String)

/-- `HotelAgent._get_fallback_hotel_data` (hotel_agent.py lines 34-50). -/
def fallbackHotelData : HotelData where
  name := "Grand Hotel"
  room_types :=
    [("standard", ⟨100, "100.0", 2, "Comfortable standard room with modern amenities"⟩),
     ("deluxe", ⟨150, "150.0", 3, "Spacious deluxe room with city view and premium facilities"⟩),
     ("suite", ⟨250, "250.0", 4, "Luxurious suite with separate living area and premium services"⟩)]
  amenities := ["Free WiFi", "Swimming Pool", "Fitness Center", "Restaurant",
                "24/7 Room Service", "Spa", "Business Center"]
  policies :=
    [("check_in", "3:00 PM"), ("check_out", "11:00 AM"),
     ("cancellation", "Free cancellation up to 24 hours before check-in"),
     ("pet_policy", "Pet-friendly with additional fee"),
     ("smoking", "Non-smoking property")]

/-- Python `dict.get(k)` on an ordered association list. -/
def dictGet (l : List (String × String)) (k : String) : Option String :=
  (l.find? (fun p => p.1 == k)).map (·.2)

/-- `policies.get(key, default)`. -/
def dictGetD (l : List (String × String)) (k dflt : String) : String :=
  (dictGet l k).getD dflt

/-- Room-type lookup `hotel_info["room_types"][rt]` as an `Option` (a
failed lookup is a `KeyError`, caught by the enclosing handler). -/
def lookupRoom (h : HotelData) (rt : String) : Option RoomInfo :=
  ((h.room_types).find? (fun p => p.1 == rt)).map (·.2)

/-- Modelled from the spec: `ConversationState` of
`models/booking_models.py` (§3).  `booking_data` is an ordered mapping of
field name to value; integer values (guest counts) are stored in their
decimal string form (the Python falsiness of the integer `0` is not
modelled; no claim depends on it).  A fresh state starts at step
`"greeting"`. -/
structure ConversationState where
  user_id : String
  current_step : String := "greeting"
  last_message : String := ""
  booking_data : List (String × String) := []

/-- Modelled from the spec: `ConversationState.add_booking_data` —
last-write-wins dictionary update (existing keys keep their position, new
keys are appended, Python `dict` order). -/
def addBookingData (bd : List (String × String)) (k v : String) :
    List (String × String) :=
  if bd.any (fun p => p.1 == k) then
    bd.map (fun p => if p.1 == k then (k, v) else p)
  else bd ++ [(k, v)]

/-- Modelled from the spec: the `Booking` record (§3).  `created_at` is
not modelled; `updated_at` is an abstract tick set from the environment's
clock by `update_timestamp`. -/
structure Booking where
  booking_id : String
  user_id : String
  check_in_date : String
  check_out_date : String
  room_type : String
  num_guests : Int
  guest_name : String
  guest_email : String
  guest_phone : String
  total_price : ℚ
  status : String := "confirmed"
  updated_at : Nat := 0

/-- Modelled from the spec: the Persistence Store (§6) — bookings keyed by
`booking_id`, conversation states keyed by `user_id`, kept in insertion
order.  Saves are modelled as always succeeding (the save-failure reply
branches of the source are therefore not exercised). -/
structure DB where
  bookings : List Booking := []
  states : List ConversationState := []

/-- Modelled from the spec: `save_booking` — upsert by booking id. -/
def save_booking (db : DB) (b : Booking) : DB :=
  { db with bookings :=
      if db.bookings.any (fun x => x.booking_id == b.booking_id) then
        db.bookings.map (fun x => if x.booking_id == b.booking_id then b else x)
      else db.bookings ++ [b] }

/-- Modelled from the spec: `get_booking`. -/
def get_booking (db : DB) (bookingId : String) : Option Booking :=
  db.bookings.find? (fun x => x.booking_id == bookingId)

/-- Modelled from the spec: `get_user_bookings` — the user's bookings in
stored order. -/
def get_user_bookings (db : DB) (uid : String) : List Booking :=
  db.bookings.filter (fun b => b.user_id == uid)

/-- Modelled from the spec: `get_conversation_state`. -/
def get_conversation_state (db : DB) (uid : String) : Option ConversationState :=
  db.states.find? (fun s => s.user_id == uid)

/-- Modelled from the spec: `save_conversation_state` — upsert by user id. -/
def save_conversation_state (db : DB) (s : ConversationState) : DB :=
  { db with states :=
      if db.states.any (fun x => x.user_id == s.user_id) then
        db.states.map (fun x => if x.user_id == s.user_id then s else x)
      else db.states ++ [s] }

/-- The record produced by the Slot Extractor (`AIClient's seven booking
fields); every field optional. -/
structure BookingInfo where
  check_in_date : Option String := none
  check_out_date : Option String := none
  room_type : Option String := none
  num_guests : Option Int := none
  guest_name : Option String := none
  guest_email : Option String := none
  guest_phone : Option String := none

/-- The all-`none` record (`AIClient._get_empty_booking_data`). -/
def emptyBookingInfo : BookingInfo := {}

/-- The external collaborators and ambient inputs, as pure functions:
intent classification and slot extraction by the language-understanding
service, free-form answer generation, the hotel catalog, today's date,
the timestamp clock and the generated booking id.  The claims under study
all fix "the same collaborator behaviour", which this captures. -/
structure Env where
  intentOf : String → String
  extractInfo : String → BookingInfo
  genResponse : String → String
  hotel : HotelData
  today : Date
  now : Nat
  newId : String

/-- Truthiness of an optional string field (Python `if value:`). -/
def truthyS : Option String → Bool
  | some s => !s.isEmpty
  | none => false

/-- hotel_agent.py lines 122-124: merge the non-empty extracted fields into
`booking_data`, in the key order of `_get_empty_booking_data` (a value is
kept when `value is not None and str(value).strip()` is non-empty). -/
def mergeBookingInfo (bd : List (String × String)) (info : BookingInfo) :
    List (String × String) :=
  let step := fun (bd : List (String × String)) (k : String) (v : Option String) =>
    match v with
    | some s => if (pyStrip s).isEmpty then bd else addBookingData bd k s
    | none => bd
  let bd := step bd "check_in_date" info.check_in_date
  let bd := step bd "check_out_date" info.check_out_date
  let bd := step bd "room_type" info.room_type
  let bd := step bd "num_guests" (info.num_guests.map (fun n => toString n))
  let bd := step bd "guest_name" info.guest_name
  let bd := step bd "guest_email" info.guest_email
  step bd "guest_phone" info.guest_phone

/-- The fixed required-field order of the Validator (§4.2). -/
def requiredFields : List String :=
  ["check_in_date", "check_out_date", "room_type", "num_guests",
   "guest_name", "guest_email", "guest_phone"]

/-- Modelled from the spec: `validate_booking_data` of
`models/booking_models.py` — the required fields whose value is absent, in
the fixed order (§4.2 item 4). -/
def validate_booking_data (bd : List (String × String)) : List String :=
  requiredFields.filter (fun k => !truthyS (dictGet bd k))

/-! ### Reply-text builders (the f-strings of hotel_agent.py) -/

/-- `${x:.2f}` money formatting.  The claims never depend on the rendered
digits; exact-rational rounding (half up) stands in for the float format. -/
def formatMoney (q : ℚ) : String :=
  let cents : ℤ := ⌊q * 100 + 1 / 2⌋
  let n := cents.natAbs
  (if cents < 0 then "-" else "") ++ toString (n / 100) ++ "." ++
    (if n % 100 < 10 then "0" else "") ++ toString (n % 100)

/-- Python `int(q)` for the rational nights value (truncation). -/
def ratToInt (q : ℚ) : Int := q.num / (q.den : ℤ)

/-- The greeting reply of `_handle_greeting`. -/
def greetingText (h : HotelData) : String :=
  "Hello! Welcome to " ++ h.name ++
  "! \n\nI'm Maya, your booking assistant. I can help you with:\n• Making new reservations\n• Checking room availability\n• Answering questions about amenities\n• Managing existing bookings\n\nHow can I assist you today?"

/-- One line of the room list in `_start_booking_flow`. -/
def roomLine (rt : String) (ri : RoomInfo) : String :=
  "• " ++ pyTitle rt ++ ": $" ++ ri.priceStr ++ "/night (up to " ++
    toString ri.capacity ++ " guests)"

/-- The catalog-plus-checklist reply of `_start_booking_flow`. -/
def startFlowText (h : HotelData) : String :=
  "Perfect! I'd love to help you book a room. \n\nHere are our available rooms:\n" ++
  String.intercalate "\n" (h.room_types.map (fun p => roomLine p.1 p.2)) ++
  "\n\nTo proceed, please provide:\n• Check-in date (YYYY-MM-DD)\n• Check-out date (YYYY-MM-DD)\n• Room type (" ++
  String.intercalate ", " (h.room_types.map (fun p => pyTitle p.1)) ++
  ")\n• Number of guests\n• Your full name\n• Email address\n• Phone number\n\nYou can provide all details in one message or step by step!"

/-- The human labels of `_request_missing_info`'s `field_mapping`. -/
def fieldLabel (k : String) : Option String :=
  dictGet
    [("check_in_date", "Check-in date (YYYY-MM-DD)"),
     ("check_out_date", "Check-out date (YYYY-MM-DD)"),
     ("room_type", "Room type"),
     ("num_guests", "Number of guests"),
     ("guest_name", "Your full name"),
     ("guest_email", "Your email address"),
     ("guest_phone", "Your phone number")] k

/-- `HotelAgent._request_missing_info` (hotel_agent.py lines 173-196). -/
def requestMissingInfo (missing : List String) (bd : List (String × String)) :
    String :=
  let collected := bd.filterMap (fun p =>
    match fieldLabel p.1 with
    | some lbl =>
      if p.2.isEmpty then none
      else some ("✅ " ++ lbl ++ ": " ++ (if p.1 == "room_type" then pyTitle p.2 else p.2))
    | none => none)
  let missingInfo := missing.map (fun f => " " ++ (fieldLabel f).getD f)
  "Great! I have the following information:\n" ++
    String.intercalate "\n" collected ++
    "\n\nI still need:\n" ++ String.intercalate "\n" missingInfo ++
    "\n\nPlease provide the missing details."

/-- `HotelAgent._generate_booking_confirmation` (hotel_agent.py
lines 236-240); `nights` is `calculate_total_price(1, ci, co)`. -/
def confirmationText (h : HotelData) (b : Booking) : String :=
  let nights := calculate_total_price 1 b.check_in_date b.check_out_date
  " Booking Confirmed!\n\n **Booking Details:**\n• Booking ID: **" ++ b.booking_id ++
  "**\n• Guest: " ++ b.guest_name ++ "\n• Dates: " ++ b.check_in_date ++ " to " ++
  b.check_out_date ++ " (" ++ toString (ratToInt nights) ++ " nights)\n• Room: " ++
  pyTitle b.room_type ++ "\n• Guests: " ++ toString b.num_guests ++ "\n• Total: $" ++
  formatMoney b.total_price ++ "\n\n A confirmation email will be sent to " ++
  b.guest_email ++ "\n\n**Check-in:** " ++ dictGetD h.policies "check_in" "3:00 PM" ++
  "\n**Check-out:** " ++ dictGetD h.policies "check_out" "11:00 AM" ++
  "\n\nThank you for choosing " ++ h.name ++
  "! Is there anything else I can help you with?"

/-- `HotelAgent._show_reschedule_options` (hotel_agent.py lines 260-269). -/
def showRescheduleOptions (active : List Booking) : String :=
  match active with
  | [b] =>
    "I found your booking:\n\n **" ++ b.booking_id ++ "**\n• Dates: " ++
    b.check_in_date ++ " to " ++ b.check_out_date ++ "\n• Room: " ++
    pyTitle b.room_type ++ "\n• Guests: " ++ toString b.num_guests ++
    "\n\nPlease provide your new preferred dates (check-in and check-out in YYYY-MM-DD format)."
  | _ =>
    "You have multiple bookings:\n\n" ++
    String.intercalate "\n" ((active.take 5).enum.map (fun p =>
      toString (p.1 + 1) ++ ". **" ++ p.2.booking_id ++ "** - " ++
      p.2.check_in_date ++ " to " ++ p.2.check_out_date ++ " (" ++
      pyTitle p.2.room_type ++ ")")) ++
    "\n\nPlease specify which booking ID you'd like to reschedule and provide the new dates."

/-- The success reply of `_process_reschedule_request`. -/
def rescheduleSuccessText (b : Booking) : String :=
  "Booking rescheduled successfully!\n\n **Updated Booking:**\n• Booking ID: " ++
  b.booking_id ++ "\n• New dates: " ++ b.check_in_date ++ " to " ++
  b.check_out_date ++ "\n• Updated total: $" ++ formatMoney b.total_price ++
  "\n\nIs there anything else I can help you with?"

/-- `HotelAgent._show_cancellation_options` (hotel_agent.py lines 328-339). -/
def showCancellationOptions (h : HotelData) (active : List Booking) : String :=
  let policy := dictGetD h.policies "cancellation" "Please contact us for cancellation terms"
  match active with
  | [b] =>
    "I found your booking:\n\n **" ++ b.booking_id ++ "**\n• Dates: " ++
    b.check_in_date ++ " to " ++ b.check_out_date ++ "\n• Room: " ++
    pyTitle b.room_type ++ "\n• Total: $" ++ formatMoney b.total_price ++
    "\n\n⚠️ **Cancellation Policy:** " ++ policy ++
    "\n\nType 'CONFIRM CANCEL' if you want to proceed with cancelling this booking."
  | _ =>
    "You have multiple bookings:\n\n" ++
    String.intercalate "\n" ((active.take 5).enum.map (fun p =>
      toString (p.1 + 1) ++ ". **" ++ p.2.booking_id ++ "** - " ++
      p.2.check_in_date ++ " to " ++ p.2.check_out_date ++ " ($" ++
      formatMoney p.2.total_price ++ ")")) ++
    "\n\nPlease specify which booking ID you'd like to cancel."

/-- The success reply of `_process_cancellation`. -/
def cancelSuccessText (b : Booking) : String :=
  " Booking cancelled successfully!\n\n **Cancelled Booking:**\n• Booking ID: " ++
  b.booking_id ++ "\n• Dates: " ++ b.check_in_date ++ " to " ++ b.check_out_date ++
  "\n• Amount: $" ++ formatMoney b.total_price ++
  "\n\nYou will receive a cancellation confirmation email shortly. Is there anything else I can help you with?"

/-- `HotelAgent._get_amenities_info`. -/
def amenitiesInfoText (h : HotelData) : String :=
  let t := if h.amenities.isEmpty then "Various amenities available"
           else String.intercalate "\n• " h.amenities
  " **" ++ h.name ++ " Amenities:**\n\n• " ++ t ++
  "\n\nWould you like to know more about any specific amenity or make a booking?"

/-- `key.replace('_', ' ').title()` for policy display. -/
def policyKeyDisplay (k : String) : String :=
  pyTitle (String.mk (k.data.map (fun c => if c = '_' then ' ' else c)))

/-- `HotelAgent._get_policies_info`. -/
def policiesInfoText (h : HotelData) : String :=
  let rows := h.policies.map (fun p =>
    "• **" ++ policyKeyDisplay p.1 ++ ":** " ++ p.2)
  let disp := if rows.isEmpty then "Standard hotel policies apply"
              else String.intercalate "\n" rows
  " **Hotel Policies:**\n\n" ++ disp ++
  "\n\nDo you have any specific questions about our policies?"

/-- `HotelAgent._get_room_info`. -/
def roomInfoText (h : HotelData) : String :=
  if h.room_types.isEmpty then
    "Room information is currently unavailable. Please contact us directly."
  else
    " **Available Rooms:**\n\n" ++
    String.intercalate "\n\n" (h.room_types.map (fun p =>
      "**" ++ pyTitle p.1 ++ "**\n  Price: $" ++ p.2.priceStr ++
      "/night\n  Capacity: Up to " ++ toString p.2.capacity ++ " guests\n  " ++
      p.2.description)) ++
    "\n\nWould you like to make a reservation?"

/-! ### The Dialogue Manager (`HotelAgent`)

Each handler maps `(state, db)` to `(reply, state, db)`.  Python mutates in
place; here the updated state and store are returned.  A Python exception
inside a handler is converted by that handler's `try/except` into its
apology string with no persisted mutation; the spots where the source can
raise (`KeyError` on a dictionary, `ValueError` in `int`) appear below as
`Option` matches whose `none` arm returns that apology. -/

/-- `HotelAgent._handle_greeting` (lines 88-91). -/
def handle_greeting (env : Env) (state : ConversationState) (db : DB) :
    String × ConversationState × DB :=
  (greetingText env.hotel, { state with current_step := "greeting" }, db)

/-- `HotelAgent._start_booking_flow` (lines 102-115): the step is updated
before the empty-catalog check. -/
def start_booking_flow (env : Env) (state : ConversationState) (db : DB) :
    String × ConversationState × DB :=
  let state := { state with current_step := "get_booking_details" }
  if env.hotel.room_types.isEmpty then
    ("I'm sorry, but room information is currently unavailable. Please try again later.",
     state, db)
  else (startFlowText env.hotel, state, db)

/-- The guest-count check of `_validate_booking_input` (lines 152-158):
`int` failure is a `ValueError` caught as the invalid-number reply. -/
def validateGuestCount (bd : List (String × String)) : Option String :=
  match dictGet bd "num_guests" with
  | some g =>
    if g = "" then none
    else
      match pyToInt g with
      | none => some "Please provide a valid number of guests."
      | some n =>
        if n < 1 ∨ n > 10 then some "Number of guests must be between 1 and 10."
        else none
  | none => none

/-- `HotelAgent._validate_dates` is `validate_dates` above;
`HotelAgent._validate_booking_input` (lines 140-160): date check, room-type
check, guest-count check, in order, first failure wins. -/
def validate_booking_input (env : Env) (bd : List (String × String)) :
    Option String :=
  let ci := dictGet bd "check_in_date"
  let co := dictGet bd "check_out_date"
  if truthyS ci && truthyS co &&
      !validate_dates env.today (ci.getD "") (co.getD "") then
    some "Please check your dates. The check-out date must be after the check-in date, and both dates should be in the future."
  else
    match dictGet bd "room_type" with
    | some rt0 =>
      if rt0 ≠ "" ∧ (lookupRoom env.hotel (pyLower rt0)).isNone then
        some (" '" ++ pyLower rt0 ++ "' is not available. Our available room types are: " ++
          String.intercalate ", " (env.hotel.room_types.map (fun p => pyTitle p.1)))
      else validateGuestCount bd
    | none => validateGuestCount bd

/-- The `except` reply of `_create_booking` (line 234, leading space as in
the source). -/
def createBookingErrText : String :=
  " I encountered an error while creating your booking. Please try again."

/-- `HotelAgent._create_booking` (lines 198-234), with the lookups in
Python evaluation order: room type, catalog entry, the two dates, the
price guard, then the remaining fields while constructing the `Booking`. -/
def create_booking (env : Env) (state : ConversationState) (db : DB) :
    String × ConversationState × DB :=
  let bd := state.booking_data
  match dictGet bd "room_type" with
  | none => (createBookingErrText, state, db)
  | some rt0 =>
    let rt := pyLower rt0
    match lookupRoom env.hotel rt with
    | none => (createBookingErrText, state, db)
    | some ri =>
      match dictGet bd "check_in_date", dictGet bd "check_out_date" with
      | some ci, some co =>
        let tp := calculate_total_price ri.price ci co
        if tp ≤ 0 then
          ("Please check your dates. There seems to be an issue with the date calculation.",
           state, db)
        else
          match dictGet bd "num_guests" with
          | none => (createBookingErrText, state, db)
          | some g =>
            match pyToInt g with
            | none => (createBookingErrText, state, db)
            | some ng =>
              match dictGet bd "guest_name", dictGet bd "guest_email",
                    dictGet bd "guest_phone" with
              | some nm, some em, some ph =>
                let b : Booking :=
                  { booking_id := env.newId, user_id := state.user_id,
                    check_in_date := ci, check_out_date := co, room_type := rt,
                    num_guests := ng, guest_name := nm, guest_email := em,
                    guest_phone := ph, total_price := tp }
                (confirmationText env.hotel b,
                 { state with current_step := "booking_complete", booking_data := [] },
                 save_booking db b)
              | _, _, _ => (createBookingErrText, state, db)
      | _, _ => (createBookingErrText, state, db)

/-- `HotelAgent._process_booking_details` (lines 117-138): extract, merge
non-empty fields, validate, report missing fields, or create. -/
def process_booking_details (env : Env) (state : ConversationState) (db : DB) :
    String × ConversationState × DB :=
  let info := env.extractInfo state.last_message
  let bd := mergeBookingInfo state.booking_data info
  let state := { state with booking_data := bd }
  match validate_booking_input env bd with
  | some err => (err, state, db)
  | none =>
    let missing := validate_booking_data bd
    if missing.isEmpty then create_booking env state db
    else (requestMissingInfo missing bd, state, db)

/-- `HotelAgent._handle_booking` (lines 93-100): the catalog entry point
only from steps `greeting` and `inquiry`. -/
def handle_booking (env : Env) (state : ConversationState) (db : DB) :
    String × ConversationState × DB :=
  if state.current_step = "greeting" ∨ state.current_step = "inquiry" then
    start_booking_flow env state db
  else process_booking_details env state db

/-- The confirmed bookings of a user (`active_bookings` of the reschedule
and cancel handlers). -/
def activeBookings (db : DB) (uid : String) : List Booking :=
  (get_user_bookings db uid).filter (fun b => b.status == "confirmed")

/-- `HotelAgent._process_reschedule_request` (lines 271-308).  The
booking-id token is sought in the lower-cased utterance; a `KeyError` on
the room-type lookup propagates to `_handle_reschedule`'s `except`. -/
def process_reschedule_request (env : Env) (state : ConversationState) (db : DB) :
    String × ConversationState × DB :=
  let message := pyLower state.last_message
  let info := env.extractInfo state.last_message
  match findBkToken message.data with
  | none =>
    ("Please provide the booking ID and new dates you'd like to reschedule to.",
     state, db)
  | some tok =>
    match get_booking db (pyUpper tok) with
    | none =>
      ("Booking not found or you don't have permission to modify it.", state, db)
    | some b =>
      if b.user_id ≠ state.user_id then
        ("Booking not found or you don't have permission to modify it.", state, db)
      else if truthyS info.check_in_date && truthyS info.check_out_date then
        let ci := info.check_in_date.getD ""
        let co := info.check_out_date.getD ""
        if validate_dates env.today ci co then
          match lookupRoom env.hotel b.room_type with
          | none =>
            ("I encountered an error while retrieving your bookings. Please try again.",
             state, db)
          | some ri =>
            let b := { b with check_in_date := ci, check_out_date := co,
                              updated_at := env.now,
                              total_price := calculate_total_price ri.price ci co }
            (rescheduleSuccessText b, { state with current_step := "inquiry" },
             save_booking db b)
        else
          (" Invalid dates. Please ensure check-out is after check-in and both dates are in the future.",
           state, db)
      else
        ("Please provide both check-in and check-out dates in YYYY-MM-DD format.",
         state, db)

/-- `HotelAgent._handle_reschedule` (lines 242-258). -/
def handle_reschedule (env : Env) (state : ConversationState) (db : DB) :
    String × ConversationState × DB :=
  if state.current_step = "reschedule_requested" then
    process_reschedule_request env state db
  else
    let active := activeBookings db state.user_id
    if active.isEmpty then
      ("You don't have any active bookings to reschedule. Would you like to make a new booking instead?",
       state, db)
    else
      (showRescheduleOptions active,
       { state with current_step := "reschedule_requested" }, db)

/-- `HotelAgent._process_cancellation` (lines 341-359). -/
def process_cancellation (env : Env) (state : ConversationState) (db : DB) :
    String × ConversationState × DB :=
  match activeBookings db state.user_id with
  | [] => ("No active bookings found to cancel.", state, db)
  | [b] =>
    let b := { b with status := "cancelled", updated_at := env.now }
    (cancelSuccessText b, { state with current_step := "inquiry" },
     save_booking db b)
  | _ => ("Please specify which booking ID you'd like to cancel.", state, db)

/-- `HotelAgent._handle_cancel` (lines 310-326): the confirmation phrase is
checked before anything else, regardless of the conversation step. -/
def handle_cancel (env : Env) (state : ConversationState) (db : DB) :
    String × ConversationState × DB :=
  if strContains "confirm cancel" (pyLower state.last_message) then
    process_cancellation env state db
  else
    let active := activeBookings db state.user_id
    if active.isEmpty then
      ("You don't have any active bookings to cancel.", state, db)
    else
      (showCancellationOptions env.hotel active,
       { state with current_step := "cancel_requested" }, db)

/-- `HotelAgent._handle_inquiry` (lines 361-389): keyword routing, then the
free-form collaborator answer padded when under 50 characters. -/
def handle_inquiry (env : Env) (state : ConversationState) (db : DB) :
    String × ConversationState × DB :=
  let ml := pyLower state.last_message
  if ["hi", "hello", "hey", "good morning", "good evening"].any
      (fun w => strContains w ml) then
    handle_greeting env state db
  else if ["amenities", "facilities", "services"].any (fun w => strContains w ml) then
    (amenitiesInfoText env.hotel, state, db)
  else if ["check-in", "check-out", "policy", "policies"].any
      (fun w => strContains w ml) then
    (policiesInfoText env.hotel, state, db)
  else if ["room", "rooms", "price", "cost"].any (fun w => strContains w ml) then
    (roomInfoText env.hotel, state, db)
  else
    let r := env.genResponse state.last_message
    let r :=
      if r.length < 50 then
        r ++ "\n\nI can also help you with:\n• Room bookings and availability\n• Hotel amenities and services\n• Booking modifications\n• General hotel information"
      else r
    (r, state, db)

/-- `HotelAgent._route_to_handler` (lines 76-86): dictionary dispatch with
`_handle_inquiry` as the default for unknown labels. -/
def route_to_handler (env : Env) (intent : String) (state : ConversationState)
    (db : DB) : String × ConversationState × DB :=
  if intent = "greeting" then handle_greeting env state db
  else if intent = "booking" then handle_booking env state db
  else if intent = "reschedule" then handle_reschedule env state db
  else if intent = "cancel" then handle_cancel env state db
  else handle_inquiry env state db

/-- `HotelAgent.process_message` (lines 52-74): guard empty inputs, strip,
guard the stripped length, load-or-create the conversation state, record
the utterance, classify, dispatch, persist the state, reply. -/
def process_message (env : Env) (user_id message : String) (db : DB) :
    String × DB :=
  if user_id = "" ∨ message = "" then
    ("I didn't receive your message properly. Please try again.", db)
  else
    let message := pyStrip message
    if message.length > 1000 then
      ("Please keep your message under 1000 characters.", db)
    else
      let state := (get_conversation_state db user_id).getD { user_id := user_id }
      let state := { state with last_message := message }
      let intent := env.intentOf message
      let (response, state, db) := route_to_handler env intent state db
      (response, save_conversation_state db state)

/-! ### The graph-orchestration wrapper (`HotelGraphBuilder`) -/

/-- The closed label set of `HotelGraphBuilder._route_intent` (lines 90-93). -/
def validIntentLabels : List String :=
  ["booking", "reschedule", "inquiry", "cancel", "greeting"]

/-- `HotelGraphBuilder._route_intent`: coerce anything outside the closed
set to `inquiry`. -/
def graph_route_intent (intent : String) : String :=
  if validIntentLabels.contains intent then intent else "inquiry"

/-- `HotelGraphBuilder._handle_booking_node` (lines 63-69): delegates the
whole turn to `HotelAgent.process_message`. -/
def handle_booking_node (env : Env) (user_id message : String) (db : DB) :
    String × DB :=
  process_message env user_id message db

/-- `HotelGraphBuilder._handle_reschedule_node` (lines 71-77). -/
def handle_reschedule_node (env : Env) (user_id message : String) (db : DB) :
    String × DB :=
  process_message env user_id message db

/-- `HotelGraphBuilder._handle_inquiry_node` (lines 79-85); the graph also
routes the `cancel` and `greeting` labels here (lines 36-42). -/
def handle_inquiry_node (env : Env) (user_id message : String) (db : DB) :
    String × DB :=
  process_message env user_id message db

/-- `HotelGraphBuilder.process` (lines 95-115).  The workflow accumulates
`[message, response]`, so the returned `messages[-1]` is the routed node's
response.  `orchestrationFails` models the `except` branch: a failure of
the graph machinery (taken here as occurring before any node effect) falls
back to invoking `HotelAgent.process_message` directly. -/
def graph_process (env : Env) (orchestrationFails : Bool)
    (user_id message : String) (db : DB) : String × DB :=
  if user_id = "" ∨ message = "" then
    ("I didn't receive your message properly. Please try again.", db)
  else if orchestrationFails then
    process_message env user_id message db
  else
    let intent := env.intentOf message
    let route := graph_route_intent intent
    if route = "booking" then handle_booking_node env user_id message db
    else if route = "reschedule" then handle_reschedule_node env user_id message db
    else handle_inquiry_node env user_id message db

/-! ### Store lemmas -/

/-- Upserting by key and then looking the key up yields the new value. -/
theorem find?_upsert_self {α : Type} (key : α → String) (l : List α) (a : α) :
    ((if l.any (fun x => key x == key a) then
        l.map (fun x => if key x == key a then a else x)
      else l ++ [a]).find? (fun x => key x == key a)) = some a := by
  induction l with
  | nil => simp
  | cons x t ih =>
    by_cases hx : key x == key a
    · simp only [List.any_cons, hx, Bool.true_or, if_true, List.map_cons]
      simp [List.find?]
    · have hx' : (key x == key a) = false := by simpa using hx
      simp only [List.any_cons, hx', Bool.false_or]
      by_cases ht : t.any (fun x => key x == key a)
      · simp only [ht, if_true, List.map_cons]
        rw [if_neg (by simp [hx'])]
        rw [List.find?]
        simp only [hx', List.cons_append]
        simpa [ht] using ih
      · have ht' : (t.any fun x => key x == key a) = false := by simpa using ht
        simp only [ht', Bool.false_eq_true, if_false, List.cons_append]
        rw [List.find?]
        simp only [hx']
        simpa [ht'] using ih

/-- `get_booking` after `save_booking` of the same id. -/
theorem get_booking_save_booking_self (db : DB) (b : Booking) :
    get_booking (save_booking db b) b.booking_id = some b := by
  have h := find?_upsert_self (fun x : Booking => x.booking_id) db.bookings b
  simpa [get_booking, save_booking] using h

/-- `get_conversation_state` after `save_conversation_state` of the same
user. -/
theorem get_state_save_state_self (db : DB) (s : ConversationState) :
    get_conversation_state (save_conversation_state db s) s.user_id = some s := by
  have h := find?_upsert_self (fun x : ConversationState => x.user_id) db.states s
  simpa [get_conversation_state, save_conversation_state] using h

/-- Saving a conversation state does not touch the bookings table. -/
theorem bookings_save_state (db : DB) (s : ConversationState) :
    (save_conversation_state db s).bookings = db.bookings := rfl

/-- A found conversation state carries the looked-up user id. -/
theorem user_id_of_get_state (db : DB) (uid : String) (s : ConversationState)
    (h : get_conversation_state db uid = some s) : s.user_id = uid := by
  have := List.find?_some h
  simpa using this

/-- The user id of the loaded-or-created conversation state of
`process_message`. -/
theorem getD_state_user_id (db : DB) (uid : String) :
    ((get_conversation_state db uid).getD { user_id := uid }).user_id = uid := by
  cases h : get_conversation_state db uid with
  | none => rfl
  | some s => simpa using user_id_of_get_state db uid s h

/-- Membership characterization of `activeBookings`. -/
theorem mem_activeBookings (db : DB) (uid : String) (x : Booking) :
    x ∈ activeBookings db uid ↔
      x ∈ db.bookings ∧ x.user_id = uid ∧ x.status = "confirmed" := by
  simp only [activeBookings, get_user_bookings, List.mem_filter, beq_iff_eq,
    decide_eq_true_eq]
  tauto

/-- After cancelling the single confirmed booking of a user, the user has
no confirmed bookings left. -/
theorem activeBookings_after_cancel (db : DB) (uid : String) (b b' : Booking)
    (hb : activeBookings db uid = [b])
    (hid : b'.booking_id = b.booking_id)
    (hst : b'.status ≠ "confirmed") :
    activeBookings (save_booking db b') uid = [] := by
  have hbmem : b ∈ db.bookings ∧ b.user_id = uid ∧ b.status = "confirmed" := by
    rw [← mem_activeBookings, hb]; exact List.mem_singleton.mpr rfl
  have hany : db.bookings.any (fun x => x.booking_id == b'.booking_id) = true := by
    refine List.any_eq_true.mpr ⟨b, hbmem.1, ?_⟩
    simp [hid]
  rw [List.eq_nil_iff_forall_not_mem]
  intro y hy
  rw [mem_activeBookings] at hy
  obtain ⟨hy1, hy2, hy3⟩ := hy
  simp only [save_booking, hany, if_true] at hy1
  obtain ⟨x, hxmem, hxy⟩ := List.mem_map.mp hy1
  by_cases hxid : x.booking_id == b'.booking_id
  · rw [if_pos hxid] at hxy
    exact hst (hxy ▸ hy3)
  · rw [if_neg hxid] at hxy
    subst hxy
    have : x ∈ activeBookings db uid := (mem_activeBookings db uid x).mpr ⟨hxmem, hy2, hy3⟩
    rw [hb] at this
    have hxb : x = b := List.mem_singleton.mp this
    apply hxid
    simp [hxb, hid]

/-- The result of one cancel turn whose utterance carries the confirmation
phrase, for a user with exactly one confirmed booking: the booking is
saved with status `cancelled`, the step becomes `inquiry`, and the reply is
the cancellation summary.  (Shared by the cancel claims.) -/
theorem cancel_turn (env : Env) (db : DB) (uid msg : String) (b : Booking)
    (hu : uid ≠ "") (hm : msg ≠ "")
    (hlen : (pyStrip msg).length ≤ 1000)
    (hint : env.intentOf (pyStrip msg) = "cancel")
    (hcc : strContains "confirm cancel" (pyLower (pyStrip msg)) = true)
    (hb : activeBookings db uid = [b]) :
    process_message env uid msg db =
      (cancelSuccessText { b with status := "cancelled", updated_at := env.now },
       save_conversation_state
         (save_booking db { b with status := "cancelled", updated_at := env.now })
         { (get_conversation_state db uid).getD { user_id := uid } with
             last_message := pyStrip msg, current_step := "inquiry" }) := by
  have hlen' : ¬((pyStrip msg).length > 1000) := by omega
  have e1 : ("cancel" = "greeting") = False := by simp
  have e2 : ("cancel" = "booking") = False := by simp
  have e3 : ("cancel" = "reschedule") = False := by simp
  simp only [process_message, route_to_handler, handle_cancel, process_cancellation,
    hu, hm, hlen', hint, hcc, getD_state_user_id, hb, e1, e2, e3, if_false, if_true,
    or_self, ite_false, ite_true]

/-- `get_booking` ignores the conversation-state table. -/
theorem get_booking_save_state (db : DB) (s : ConversationState) (bid : String) :
    get_booking (save_conversation_state db s) bid = get_booking db bid := rfl

/-- `activeBookings` ignores the conversation-state table. -/
theorem activeBookings_save_state (db : DB) (s : ConversationState) (uid : String) :
    activeBookings (save_conversation_state db s) uid = activeBookings db uid := rfl

/-- A present, non-empty optional field is truthy. -/
theorem truthyS_some_of_ne (s : String) (h : s ≠ "") : truthyS (some s) = true := by
  simp only [truthyS, Bool.not_eq_true']
  rcases hs : s.isEmpty with _ | _
  · rfl
  · exact absurd ((String.isEmpty_iff s).mp (by simp [hs])) h

/-- The stored conversation step after saving a state owned by `uid`. -/
theorem get_state_after_save (db : DB) (s : ConversationState) (uid : String)
    (h : s.user_id = uid) :
    get_conversation_state (save_conversation_state db s) uid = some s := by
  subst h
  exact get_state_save_state_self db s

/-- The result of one cancel turn whose utterance carries the confirmation
phrase when the user has no confirmed booking: nothing-to-cancel reply, no
booking touched, step unchanged.  (Shared by the cancel claims.) -/
theorem cancel_noop_turn (env : Env) (db : DB) (uid msg : String)
    (hu : uid ≠ "") (hm : msg ≠ "")
    (hlen : (pyStrip msg).length ≤ 1000)
    (hint : env.intentOf (pyStrip msg) = "cancel")
    (hcc : strContains "confirm cancel" (pyLower (pyStrip msg)) = true)
    (hb : activeBookings db uid = []) :
    process_message env uid msg db =
      ("No active bookings found to cancel.",
       save_conversation_state db
         { (get_conversation_state db uid).getD { user_id := uid } with
             last_message := pyStrip msg }) := by
  have hlen' : ¬((pyStrip msg).length > 1000) := by omega
  have e1 : ("cancel" = "greeting") = False := by simp
  have e2 : ("cancel" = "booking") = False := by simp
  have e3 : ("cancel" = "reschedule") = False := by simp
  simp only [process_message, route_to_handler, handle_cancel, process_cancellation,
    hu, hm, hlen', hint, hcc, getD_state_user_id, hb, e1, e2, e3, if_false, if_true,
    or_self, ite_false, ite_true]

/-! ### Concrete material for witnesses and counterexamples -/

/-- A collaborator environment that classifies every utterance as `cancel`
and extracts nothing. -/
def envCancel : Env where
  intentOf := fun _ => "cancel"
  extractInfo := fun _ => {}
  genResponse := fun _ => "Our hotel has many amenities for all our guests."
  hotel := fallbackHotelData
  today := ⟨2024, 1, 1⟩
  now := 5
  newId := "BKNEW1"

/-- A concrete confirmed booking. -/
def bookingA : Booking where
  booking_id := "BKAAA"
  user_id := "u1"
  check_in_date := "2024-03-05"
  check_out_date := "2024-03-08"
  room_type := "standard"
  num_guests := 2
  guest_name := "John Doe"
  guest_email := "john@example.com"
  guest_phone := "1234567890"
  total_price := 300

/-- A store holding exactly `bookingA`. -/
def dbA : DB := { bookings := [bookingA] }

/-! ### The claims -/

/-- C10: cancellation is gated only by the presence of the confirmation
phrase `confirm cancel` (case-insensitive substring) in a cancel-intent
turn, not by the conversation step: with exactly one confirmed booking,
a first-ever cancel-intent message that already contains the phrase (the
hypotheses place no constraint on the stored conversation state, so the
step was never `cancel_requested` and no prompt was ever shown) cancels
that booking immediately, moves the step to `inquiry`, and replies with
the cancellation summary. -/
theorem C10_cancel_gated_by_phrase_only (env : Env) (db : DB)
    (uid msg : String) (b : Booking)
    (hu : uid ≠ "") (hm : msg ≠ "")
    (hlen : (pyStrip msg).length ≤ 1000)
    (hint : env.intentOf (pyStrip msg) = "cancel")
    (hcc : strContains "confirm cancel" (pyLower (pyStrip msg)) = true)
    (hb : activeBookings db uid = [b]) :
    (process_message env uid msg db).1 =
      cancelSuccessText { b with status := "cancelled", updated_at := env.now } ∧
    get_booking (process_message env uid msg db).2 b.booking_id =
      some { b with status := "cancelled", updated_at := env.now } ∧
    (get_conversation_state (process_message env uid msg db).2 uid).map
      (fun s => s.current_step) = some "inquiry" := by
  rw [cancel_turn env db uid msg b hu hm hlen hint hcc hb]
  refine ⟨rfl, ?_, ?_⟩
  · rw [get_booking_save_state]
    exact get_booking_save_booking_self db _
  · rw [get_state_after_save _ _ uid (by simpa using getD_state_user_id db uid)]
    rfl

/-- Witness for C10: cancelling the unique confirmed booking of `dbA` with
the message `"CONFIRM CANCEL"`. -/
theorem C10_cancel_gated_by_phrase_only_witness :
    (process_message envCancel "u1" "CONFIRM CANCEL" dbA).1 =
      cancelSuccessText { bookingA with status := "cancelled", updated_at := envCancel.now } ∧
    get_booking (process_message envCancel "u1" "CONFIRM CANCEL" dbA).2 bookingA.booking_id =
      some { bookingA with status := "cancelled", updated_at := envCancel.now } ∧
    (get_conversation_state (process_message envCancel "u1" "CONFIRM CANCEL" dbA).2 "u1").map
      (fun s => s.current_step) = some "inquiry" :=
  C10_cancel_gated_by_phrase_only envCancel dbA "u1" "CONFIRM CANCEL" bookingA
    (by decide) (by decide) (by decide) rfl rfl rfl

/-- C3: in the cancel flow, for a user with exactly one confirmed booking,
a cancel-intent message containing the literal confirmation phrase sets
that booking's status to `cancelled` and the conversation step to
`inquiry`; a second confirmation message sent after that cancellation
changes no booking (the bookings table is untouched, the step stays
`inquiry`) and reports that there is nothing to cancel. -/
theorem C3_cancel_confirm_then_noop (env : Env) (db : DB)
    (uid msg1 msg2 : String) (b : Booking)
    (hu : uid ≠ "") (hm1 : msg1 ≠ "") (hm2 : msg2 ≠ "")
    (hlen1 : (pyStrip msg1).length ≤ 1000) (hlen2 : (pyStrip msg2).length ≤ 1000)
    (hint1 : env.intentOf (pyStrip msg1) = "cancel")
    (hint2 : env.intentOf (pyStrip msg2) = "cancel")
    (hcc1 : strContains "confirm cancel" (pyLower (pyStrip msg1)) = true)
    (hcc2 : strContains "confirm cancel" (pyLower (pyStrip msg2)) = true)
    (hb : activeBookings db uid = [b]) :
    get_booking (process_message env uid msg1 db).2 b.booking_id =
      some { b with status := "cancelled", updated_at := env.now } ∧
    (get_conversation_state (process_message env uid msg1 db).2 uid).map
      (fun s => s.current_step) = some "inquiry" ∧
    (process_message env uid msg2 (process_message env uid msg1 db).2).1 =
      "No active bookings found to cancel." ∧
    (process_message env uid msg2 (process_message env uid msg1 db).2).2.bookings =
      (process_message env uid msg1 db).2.bookings ∧
    (get_conversation_state
        (process_message env uid msg2 (process_message env uid msg1 db).2).2 uid).map
      (fun s => s.current_step) = some "inquiry" := by
  have h1 := cancel_turn env db uid msg1 b hu hm1 hlen1 hint1 hcc1 hb
  have hdb1 : (process_message env uid msg1 db).2 =
      save_conversation_state
        (save_booking db { b with status := "cancelled", updated_at := env.now })
        { (get_conversation_state db uid).getD { user_id := uid } with
            last_message := pyStrip msg1, current_step := "inquiry" } := by
    rw [h1]
  have hb2 : activeBookings (process_message env uid msg1 db).2 uid = [] := by
    rw [hdb1, activeBookings_save_state]
    exact activeBookings_after_cancel db uid b _ hb rfl (by simp)
  have hst1get : get_conversation_state (process_message env uid msg1 db).2 uid =
      some { (get_conversation_state db uid).getD { user_id := uid } with
               last_message := pyStrip msg1, current_step := "inquiry" } := by
    rw [hdb1]
    exact get_state_after_save _ _ uid (by simpa using getD_state_user_id db uid)
  have h2 := cancel_noop_turn env (process_message env uid msg1 db).2 uid msg2
    hu hm2 hlen2 hint2 hcc2 hb2
  refine ⟨?_, ?_, ?_, ?_, ?_⟩
  · rw [hdb1, get_booking_save_state]
    exact get_booking_save_booking_self db _
  · rw [hst1get]
    rfl
  · rw [h2]
  · rw [h2]
    rfl
  · rw [h2]
    rw [get_state_after_save _ _ uid
      (by simpa using getD_state_user_id (process_message env uid msg1 db).2 uid)]
    simp [hst1get]

/-- Witness for C3: the two-turn cancel flow on `dbA`. -/
theorem C3_cancel_confirm_then_noop_witness :
    get_booking (process_message envCancel "u1" "CONFIRM CANCEL" dbA).2 bookingA.booking_id =
      some { bookingA with status := "cancelled", updated_at := envCancel.now } ∧
    (get_conversation_state (process_message envCancel "u1" "CONFIRM CANCEL" dbA).2 "u1").map
      (fun s => s.current_step) = some "inquiry" ∧
    (process_message envCancel "u1" "please CONFIRM CANCEL again"
        (process_message envCancel "u1" "CONFIRM CANCEL" dbA).2).1 =
      "No active bookings found to cancel." ∧
    (process_message envCancel "u1" "please CONFIRM CANCEL again"
        (process_message envCancel "u1" "CONFIRM CANCEL" dbA).2).2.bookings =
      (process_message envCancel "u1" "CONFIRM CANCEL" dbA).2.bookings ∧
    (get_conversation_state
        (process_message envCancel "u1" "please CONFIRM CANCEL again"
          (process_message envCancel "u1" "CONFIRM CANCEL" dbA).2).2 "u1").map
      (fun s => s.current_step) = some "inquiry" :=
  C3_cancel_confirm_then_noop envCancel dbA "u1" "CONFIRM CANCEL"
    "please CONFIRM CANCEL again" bookingA
    (by decide) (by decide) (by decide) (by decide) (by decide)
    rfl rfl rfl rfl rfl

/-- C5: in the reschedule continuation step, whenever the extracted
booking-id token does not exist in the store, or the found booking belongs
to a different user, the reply is the not-found/permission message and the
conversation state and the store are returned unchanged — for every
utterance containing such a token and every store contents. -/
theorem C5_reschedule_unowned_rejected (env : Env) (state : ConversationState)
    (db : DB) (tok : String)
    (h1 : findBkToken (pyLower state.last_message).data = some tok)
    (h2 : get_booking db (pyUpper tok) = none ∨
          ∃ b, get_booking db (pyUpper tok) = some b ∧ b.user_id ≠ state.user_id) :
    process_reschedule_request env state db =
      ("Booking not found or you don't have permission to modify it.", state, db) := by
  rcases h2 with h2 | ⟨b, h2, hne⟩
  · simp only [process_reschedule_request, h1, h2]
  · simp only [process_reschedule_request, h1, h2, if_pos hne]

/-- A conversation state sitting in the reschedule continuation step with
an utterance naming a booking id that is not in `dbA`. -/
def stateResched : ConversationState where
  user_id := "u1"
  current_step := "reschedule_requested"
  last_message := "reschedule BK999 to 2024-05-01"

/-- Witness for C5: booking id `BK999` is absent from `dbA`. -/
theorem C5_reschedule_unowned_rejected_witness :
    process_reschedule_request envCancel stateResched dbA =
      ("Booking not found or you don't have permission to modify it.",
       stateResched, dbA) :=
  C5_reschedule_unowned_rejected envCancel stateResched dbA "bk999" rfl (Or.inl rfl)

/-- C2: for every user id, message and store, the graph-orchestration entry
point (`HotelGraphBuilder.process`) returns exactly what invoking the
Dialogue Manager (`HotelAgent.process_message`) directly returns, given the
same collaborator behaviour — whether the routed label is in the closed set
(every node delegates to `process_message`), outside it (coerced to
`inquiry`, whose node also delegates), or the orchestration layer fails
(the `except` fallback invokes `process_message`); the empty-input guards
of the two entry points coincide as well. -/
theorem C2_graph_refines_agent (env : Env) (orchestrationFails : Bool)
    (user_id message : String) (db : DB) :
    graph_process env orchestrationFails user_id message db =
      process_message env user_id message db := by
  unfold graph_process handle_booking_node handle_reschedule_node handle_inquiry_node
  by_cases h : user_id = "" ∨ message = ""
  · rw [if_pos h]
    unfold process_message
    rw [if_pos h]
  · rw [if_neg h]
    cases orchestrationFails
    · simp only [Bool.false_eq_true, if_false]
      split
      · rfl
      · split <;> rfl
    · simp

/-- C4: the date-pair validation accepts exactly when both strings parse
under `strptime("%Y-%m-%d")`, check-in is today or later and check-out is
strictly later than check-in (chronological, day-number comparison); any
pair parsing to equal dates — in particular the same string twice — is
rejected; a pair exactly one day apart with check-in today or later is
accepted; an unparseable date yields `false` rather than an exception. -/
theorem C4_validate_dates_spec :
    (∀ (today : Date) (ci co : String),
        validate_dates today ci co = true ↔
          ∃ a b, parseYMD ci = some a ∧ parseYMD co = some b ∧
            rataDie today ≤ rataDie a ∧ rataDie a < rataDie b) ∧
    (∀ (today : Date) (s t : String), parseYMD s = parseYMD t →
        validate_dates today s t = false) ∧
    (∀ (today : Date) (ci co : String) (a b : Date),
        parseYMD ci = some a → parseYMD co = some b →
        rataDie today ≤ rataDie a → rataDie b = rataDie a + 1 →
        validate_dates today ci co = true) ∧
    (∀ (today : Date) (ci co : String),
        parseYMD ci = none ∨ parseYMD co = none →
        validate_dates today ci co = false) := by
  refine ⟨?_, ?_, ?_, ?_⟩
  · intro today ci co
    cases hci : parseYMD ci <;> cases hco : parseYMD co <;>
      simp [validate_dates, hci, hco]
  · intro today s t h
    cases hs : parseYMD s <;> cases ht : parseYMD t <;>
      simp_all [validate_dates]
  · intro today ci co a b hci hco hle hsucc
    simp [validate_dates, hci, hco, hle]
    omega
  · intro today ci co h
    rcases h with h | h <;> cases hci : parseYMD ci <;> cases hco : parseYMD co <;>
      simp_all [validate_dates]

/-- Witness for C4: a one-night stay in the future is accepted. -/
theorem C4_validate_dates_spec_witness :
    validate_dates ⟨2024, 1, 1⟩ "2024-03-05" "2024-03-06" = true :=
  C4_validate_dates_spec.2.2.1 ⟨2024, 1, 1⟩ "2024-03-05" "2024-03-06"
    ⟨2024, 3, 5⟩ ⟨2024, 3, 6⟩ rfl rfl (by decide) (by decide)

/-- C1: the stored total price is always `nightly_rate × nights`:
the price computation multiplies the rate by the day-number difference of
the parsed dates and is strictly positive whenever the date validation
passes and the rate is positive; `_create_booking` stores exactly
`calculate_total_price(rate, check_in, check_out)` for the looked-up room,
and `_process_reschedule_request` recomputes the stored price from the
booking's existing room type and the new validated dates. -/
theorem C1_price_invariant :
    (∀ (rate : ℚ) (ci co : String) (a b : Date),
        parseYMD ci = some a → parseYMD co = some b →
        calculate_total_price rate ci co =
          rate * (((rataDie b : ℤ) - (rataDie a : ℤ) : ℤ) : ℚ)) ∧
    (∀ (today : Date) (rate : ℚ) (ci co : String),
        0 < rate → validate_dates today ci co = true →
        0 < calculate_total_price rate ci co) ∧
    (∀ (env : Env) (state : ConversationState) (db : DB) (rt0 : String)
        (ri : RoomInfo) (ci co g : String) (ng : Int) (nm em ph : String),
        dictGet state.booking_data "room_type" = some rt0 →
        lookupRoom env.hotel (pyLower rt0) = some ri →
        dictGet state.booking_data "check_in_date" = some ci →
        dictGet state.booking_data "check_out_date" = some co →
        0 < calculate_total_price ri.price ci co →
        dictGet state.booking_data "num_guests" = some g →
        pyToInt g = some ng →
        dictGet state.booking_data "guest_name" = some nm →
        dictGet state.booking_data "guest_email" = some em →
        dictGet state.booking_data "guest_phone" = some ph →
        ∃ bk : Booking,
          create_booking env state db =
            (confirmationText env.hotel bk,
             { state with current_step := "booking_complete", booking_data := [] },
             save_booking db bk) ∧
          bk.total_price = calculate_total_price ri.price ci co ∧
          bk.room_type = pyLower rt0 ∧
          bk.check_in_date = ci ∧ bk.check_out_date = co) ∧
    (∀ (env : Env) (state : ConversationState) (db : DB) (tok : String)
        (b : Booking) (ci co : String) (ri : RoomInfo),
        findBkToken (pyLower state.last_message).data = some tok →
        get_booking db (pyUpper tok) = some b →
        b.user_id = state.user_id →
        (env.extractInfo state.last_message).check_in_date = some ci → ci ≠ "" →
        (env.extractInfo state.last_message).check_out_date = some co → co ≠ "" →
        validate_dates env.today ci co = true →
        lookupRoom env.hotel b.room_type = some ri →
        process_reschedule_request env state db =
          (rescheduleSuccessText
             { b with check_in_date := ci, check_out_date := co,
                      updated_at := env.now,
                      total_price := calculate_total_price ri.price ci co },
           { state with current_step := "inquiry" },
           save_booking db
             { b with check_in_date := ci, check_out_date := co,
                      updated_at := env.now,
                      total_price := calculate_total_price ri.price ci co })) := by
  refine ⟨?_, ?_, ?_, ?_⟩
  · intro rate ci co a b hci hco
    simp [calculate_total_price, hci, hco]
  · intro today rate ci co hrate hv
    unfold validate_dates at hv
    unfold calculate_total_price
    rcases hci : parseYMD ci with _ | a <;> rcases hco : parseYMD co with _ | b <;>
        rw [hci, hco] at hv <;> simp only [Bool.and_eq_true, decide_eq_true_eq] at hv
    · exact absurd hv (by simp)
    · exact absurd hv (by simp)
    · exact absurd hv (by simp)
    · simp only
      have hlt : (rataDie a : ℤ) < (rataDie b : ℤ) := by exact_mod_cast hv.2
      have hpos : (0 : ℚ) < (((rataDie b : ℤ) - (rataDie a : ℤ) : ℤ) : ℚ) := by
        exact_mod_cast sub_pos.mpr hlt
      exact mul_pos hrate hpos
  · intro env state db rt0 ri ci co g ng nm em ph hrt hri hci hco hpos hg hng hnm hem hph
    have hnle : ¬(calculate_total_price ri.price ci co ≤ 0) := not_le.mpr hpos
    refine ⟨{ booking_id := env.newId, user_id := state.user_id,
              check_in_date := ci, check_out_date := co, room_type := pyLower rt0,
              num_guests := ng, guest_name := nm, guest_email := em,
              guest_phone := ph,
              total_price := calculate_total_price ri.price ci co },
            ?_, rfl, rfl, rfl, rfl⟩
    simp only [create_booking, hrt, hri, hci, hco, hg, hng, hnm, hem, hph, hnle,
      if_false, ite_false]
  · intro env state db tok b ci co ri htok hget hown hci hcine hco hcone hval hri
    simp only [process_reschedule_request, htok, hget, hown, ne_eq,
      not_true_eq_false, if_false, hci, hco, Option.getD_some,
      truthyS_some_of_ne ci hcine, truthyS_some_of_ne co hcone, Bool.and_self,
      hval, if_true, hri, ite_true, ite_false]

/-- Witness for C1: a three-night standard stay has positive price. -/
theorem C1_price_invariant_witness :
    0 < calculate_total_price 100 "2024-03-05" "2024-03-08" :=
  C1_price_invariant.2.1 ⟨2024, 1, 1⟩ 100 "2024-03-05" "2024-03-08"
    (by norm_num) (by decide)

/-- A digit character is not regex whitespace. -/
theorem pyIsSpace_eq_false_of_digit (c : Char) (h : pyIsDigit c = true) :
    pyIsSpace c = false := by
  rcases hsp : pyIsSpace c with _ | _
  · rfl
  · exfalso
    simp only [pyIsSpace, Bool.or_eq_true, decide_eq_true_eq] at hsp
    rcases hsp with ((((h1 | h1) | h1) | h1) | h1) | h1 <;> subst h1 <;>
      exact absurd h (by decide)

/-- A digit character is not a hyphen. -/
theorem ne_dash_of_digit (c : Char) (h : pyIsDigit c = true) : (c = '-') = False := by
  simp only [eq_iff_iff, iff_false]
  intro h1
  subst h1
  exact absurd h (by decide)

/-- C8: date normalization is idempotent — applied to any string already of
the form `YYYY-MM-DD` (four digits, hyphen, two digits, hyphen, two digits)
it returns the string unchanged; it maps `"2024-3-5"`, `"5 March 2024"` and
`"03/05/2024"` all to `"2024-03-05"`; and an unparseable candidate yields
`none` (the embedding is a total function into `Option`, mirroring the
`try/except` that makes the Python never raise). -/
theorem C8_normalize_idempotent :
    (∀ (a b c d f g i j : Char),
        pyIsDigit a = true → pyIsDigit b = true → pyIsDigit c = true →
        pyIsDigit d = true → pyIsDigit f = true → pyIsDigit g = true →
        pyIsDigit i = true → pyIsDigit j = true →
        pyNormalizeDate (String.mk [a, b, c, d, '-', f, g, '-', i, j]) =
          some (String.mk [a, b, c, d, '-', f, g, '-', i, j])) ∧
    pyNormalizeDate "2024-3-5" = some "2024-03-05" ∧
    pyNormalizeDate "5 March 2024" = some "2024-03-05" ∧
    pyNormalizeDate "03/05/2024" = some "2024-03-05" ∧
    pyNormalizeDate "hello" = none := by
  refine ⟨?_, rfl, rfl, rfl, rfl⟩
  intro a b c d f g i j ha hb hc hd hf hg hi hj
  simp only [pyNormalizeDate, isPat3Start, matchPat3, isPat1Start, matchPat1,
    pySplitChar, zfill2, ha, hb, hc, hd, hf, hg, hi, hj,
    pyIsSpace_eq_false_of_digit c hc,
    ne_dash_of_digit a ha, ne_dash_of_digit b hb, ne_dash_of_digit c hc,
    ne_dash_of_digit d hd, ne_dash_of_digit f hf, ne_dash_of_digit g hg,
    ne_dash_of_digit i hi, ne_dash_of_digit j hj,
    Bool.and_self, Bool.and_true, Bool.true_and, ite_true, ite_false,
    if_true, if_false, List.takeWhile, List.dropWhile, List.isEmpty,
    Option.isSome]
  rfl

/-- Witness for C8: idempotence at `"2024-03-05"`. -/
theorem C8_normalize_idempotent_witness :
    pyNormalizeDate (String.mk ['2', '0', '2', '4', '-', '0', '3', '-', '0', '5']) =
      some (String.mk ['2', '0', '2', '4', '-', '0', '3', '-', '0', '5']) :=
  C8_normalize_idempotent.1 '2' '0' '2' '4' '0' '3' '0' '5'
    (by decide) (by decide) (by decide) (by decide)
    (by decide) (by decide) (by decide) (by decide)

/-- Counterexample to C7 as stated.  In the utterance
`"stay from 03/05/2024 to 2024-3-9"` the `M/D/YYYY` date `03/05/2024`
(normalizing to `2024-03-05`) appears before the `YYYY-M-D` date `2024-3-9`
(normalizing to `2024-03-09`), so collecting matches in utterance-appearance
order would assign check-in `2024-03-05` and check-out `2024-03-09`.  The
code instead collects pattern by pattern (`dates_found.extend` per pattern,
`YYYY-M-D` first), producing the reversed assignment (the third collected
candidate, the stray word-pattern match `"24 to 2024"`, is dropped by
normalization). -/
theorem C7_counterexample :
    datesFound "stay from 03/05/2024 to 2024-3-9" =
      ["2024-3-9", "03/05/2024", "24 to 2024"] ∧
    rulesDateAssignment "stay from 03/05/2024 to 2024-3-9" =
      (some "2024-03-09", some "2024-03-05") ∧
    rulesDateAssignment "stay from 03/05/2024 to 2024-3-9" ≠
      (some "2024-03-05", some "2024-03-09") :=
  ⟨by decide, rfl, by decide⟩

/-- C7 amended: the rule-based extractor collects the date matches pattern
by pattern — all `YYYY-M-D` matches (in appearance order), then all
`M/D/YYYY` / `M-D-YYYY` matches, then all `D MonthName YYYY` matches —
normalizes each to `YYYY-MM-DD`, and when at least two normalized dates
survive assigns the first of this pattern-ordered list to `check_in_date`
and the second to `check_out_date`; so when dates of different formats
appear, the assignment follows pattern order, not utterance order (a
`YYYY-M-D` date becomes check-in even when an `M/D/YYYY` date precedes it
in the utterance). -/
theorem C7_dates_pattern_order :
    (∀ (message d1 d2 : String) (rest : List String),
        normalizedDates message = d1 :: d2 :: rest →
        rulesDateAssignment message = (some d1, some d2)) ∧
    rulesDateAssignment "stay from 03/05/2024 to 2024-3-9" =
      (some "2024-03-09", some "2024-03-05") := by
  refine ⟨?_, rfl⟩
  intro message d1 d2 rest h
  simp [rulesDateAssignment, h]

/-- Witness for C7 (amended): a two-date utterance in one format. -/
theorem C7_dates_pattern_order_witness :
    rulesDateAssignment "from 2024-12-25 to 2024-12-28" =
      (some "2024-12-25", some "2024-12-28") :=
  C7_dates_pattern_order.1 "from 2024-12-25 to 2024-12-28"
    "2024-12-25" "2024-12-28" [] rfl

/-- A collaborator environment that classifies every utterance as
`booking` and extracts no fields. -/
def envBooking : Env where
  intentOf := fun _ => "booking"
  extractInfo := fun _ => {}
  genResponse := fun _ => "We have standard, deluxe and suite rooms available."
  hotel := fallbackHotelData
  today := ⟨2024, 1, 1⟩
  now := 3
  newId := "BKNEW2"

/-- A store whose only conversation state sits at step `booking_complete`
with cleared booking data (the state left behind by a completed booking). -/
def dbComplete : DB :=
  { states := [{ user_id := "u1", current_step := "booking_complete" }] }

/-- Counterexample to C6 as stated: at step `booking_complete` a
booking-intent message is routed to `_process_booking_details`, not
`_start_booking_flow` — the reply is the collected/missing-fields summary,
not the catalog-plus-checklist, and the step stays `booking_complete`
instead of moving to `get_booking_details`. -/
theorem C6_counterexample :
    (process_message envBooking "u1" "I would like to reserve another stay" dbComplete).1 =
      requestMissingInfo requiredFields [] ∧
    requestMissingInfo requiredFields [] ≠ startFlowText fallbackHotelData ∧
    (get_conversation_state
        (process_message envBooking "u1" "I would like to reserve another stay" dbComplete).2
        "u1").map (fun s => s.current_step) = some "booking_complete" :=
  ⟨rfl, by decide, rfl⟩

/-- Any two strings whose underlying first characters differ are
different. -/
theorem string_ne_of_head_ne (s t : String) (h : s.data.head? ≠ t.data.head?) :
    s ≠ t := fun he => h (he ▸ rfl)

/-- C6 amended: after a booking completes, a subsequent booking-intent
message does not re-enter the booking sub-flow at its catalog entry point:
`_handle_booking` routes any step outside greeting/inquiry to
`_process_booking_details`, so with the cleared booking data and no
extractable fields the reply is the collected/missing-fields checklist
(listing all seven required fields), the step remains `booking_complete`,
and the reply differs from what `_start_booking_flow` would emit; the
catalog entry point is reached exactly from steps `greeting` and
`inquiry`. -/
theorem C6_booking_complete_routes_to_details :
    (∀ (env : Env) (state : ConversationState) (db : DB),
        state.current_step = "booking_complete" →
        state.booking_data = [] →
        env.extractInfo state.last_message = emptyBookingInfo →
        handle_booking env state db =
          (requestMissingInfo requiredFields [], state, db) ∧
        requestMissingInfo requiredFields [] ≠ (start_booking_flow env state db).1) ∧
    (∀ (env : Env) (state : ConversationState) (db : DB),
        state.current_step = "greeting" ∨ state.current_step = "inquiry" →
        handle_booking env state db = start_booking_flow env state db) := by
  constructor
  · intro env state db hstep hbd hinfo
    constructor
    · obtain ⟨u, cs, lm, bd⟩ := state
      simp only at hstep hbd
      subst hstep hbd
      have hne : ¬(("booking_complete" = "greeting") ∨ ("booking_complete" = "inquiry")) := by
        simp
      have hmerge : mergeBookingInfo [] emptyBookingInfo = [] := rfl
      have hval : ∀ e : Env, validate_booking_input e [] = none := fun _ => rfl
      have hmiss : validate_booking_data [] = requiredFields := rfl
      have hre : requiredFields.isEmpty = false := rfl
      simp only [handle_booking, hne, if_false, ite_false, process_booking_details,
        hinfo, hmerge, hval, hmiss, hre, Bool.false_eq_true]
    · unfold start_booking_flow
      rcases hre : env.hotel.room_types.isEmpty with _ | _
      · simp only [hre, Bool.false_eq_true, if_false, ite_false]
        apply string_ne_of_head_ne
        intro hh
        have : some 'G' = some 'P' := hh
        simp at this
      · simp only [hre, if_true, ite_true]
        apply string_ne_of_head_ne
        intro hh
        have : some 'G' = some 'I' := hh
        simp at this
  · intro env state db h
    simp only [handle_booking, h, if_pos h, if_true, ite_true]

/-- Witness for C6 (amended): the concrete `booking_complete` store. -/
theorem C6_booking_complete_routes_to_details_witness :
    handle_booking envBooking
        { user_id := "u1", current_step := "booking_complete",
          last_message := "book again" } ({} : DB) =
      (requestMissingInfo requiredFields [],
       { user_id := "u1", current_step := "booking_complete",
         last_message := "book again" }, ({} : DB)) :=
  (C6_booking_complete_routes_to_details.1 envBooking
    { user_id := "u1", current_step := "booking_complete",
      last_message := "book again" } {} rfl rfl rfl).1

/-- A collaborator environment that classifies every utterance as
`greeting`. -/
def envGreeting : Env where
  intentOf := fun _ => "greeting"
  extractInfo := fun _ => {}
  genResponse := fun _ => "You are welcome at the Grand Hotel at any time."
  hotel := fallbackHotelData
  today := ⟨2024, 1, 1⟩
  now := 9
  newId := "BKNEW3"

/-- A 1001-character message whose last character is a space: over the
limit before stripping, exactly at the limit after. -/
def bigMsg : String := String.mk (List.replicate 1000 'a' ++ [' '])

/-- Counterexample to C9 as stated: the length guard runs on the stripped
message (`message = message.strip()` before `len(message) > 1000`), so a
message body of 1001 characters with a trailing space is not rejected —
the turn proceeds and returns the greeting reply, not the length notice. -/
theorem C9_counterexample :
    bigMsg.length = 1001 ∧
    (process_message envGreeting "u1" bigMsg {}).1 =
      greetingText fallbackHotelData ∧
    greetingText fallbackHotelData ≠
      "Please keep your message under 1000 characters." :=
  ⟨by decide, rfl, by decide⟩

/-- C9 amended: an empty user id or empty message is a terminal turn with
the fixed "didn't receive your message" reply and an untouched store; a
message whose whitespace-stripped body exceeds 1000 characters is a
terminal turn with the fixed length notice and an untouched store (the
guard measures the stripped message, not the raw one). -/
theorem C9_guards_terminal :
    (∀ (env : Env) (uid msg : String) (db : DB),
        uid = "" ∨ msg = "" →
        process_message env uid msg db =
          ("I didn't receive your message properly. Please try again.", db)) ∧
    (∀ (env : Env) (uid msg : String) (db : DB),
        uid ≠ "" → msg ≠ "" → (pyStrip msg).length > 1000 →
        process_message env uid msg db =
          ("Please keep your message under 1000 characters.", db)) := by
  constructor
  · intro env uid msg db h
    unfold process_message
    rw [if_pos h]
  · intro env uid msg db hu hm hlen
    unfold process_message
    rw [if_neg (by simp [hu, hm]), if_pos hlen]

/-- Witness for C9 (amended): both guards at concrete inputs. -/
theorem C9_guards_terminal_witness :
    process_message envGreeting "" "hello" ({} : DB) =
      ("I didn't receive your message properly. Please try again.", ({} : DB)) ∧
    process_message envGreeting "u1" (String.mk (List.replicate 1001 'b')) ({} : DB) =
      ("Please keep your message under 1000 characters.", ({} : DB)) :=
  ⟨C9_guards_terminal.1 envGreeting "" "hello" {} (Or.inl rfl),
   C9_guards_terminal.2 envGreeting "u1" (String.mk (List.replicate 1001 'b')) {}
     (by decide) (by decide) (by decide)⟩

end MeraHotel
